import Mathlib

/-!
# Verification of the Mimosa26 raw-data interpreter

Shallow embedding of `pyBAR_mimosa26_interpreter/raw_data_interpreter.py`
(function `build_hits` and class `RawDataInterpreter`) and of the
construction-time checks of `pyBAR_mimosa26_interpreter/data_interpreter.py`
(class `DataInterpreter`).

Raw data words are 32-bit unsigned integers, modelled as `Nat`; every mask
and shift in the source only looks at bits 0..31.  Numpy/numba array cells
are fixed-width unsigned or signed machine integers; stores into the typed
hit record apply an explicit `% 2^w` (or `Int.emod`) exactly where the
source narrows a wider intermediate into a record field.  The per-plane
arrays of the interpreter state are modelled as `List`s indexed through
`aget`/`aset`, which reproduce numpy's negative-index wraparound (the source
computes `plane_id = ((word >> 20) & 0xf) - 1`, which is `-1` for words
whose plane nibble is zero, and numba resolves index `-1` to the last
element).

Intermediate scalar arithmetic (`trigger_timestamp`, `delta_timestamp`,
trigger numbers) is int64 in numba and can never overflow 64 bits here, so
it is embedded as exact `Nat`/`Int` arithmetic.
-/

/-- Numpy-style read of cell `i` of array `l` (default `d` is only used for
indices that would be out of bounds in numpy, which the source never
produces on the paths modelled here).  A negative index wraps from the end,
as numpy does. -/
def aget (l : List α) (d : α) (i : Int) : α :=
  if i < 0 then l.getD ((l.length : Int) + i).toNat d else l.getD i.toNat d

/-- Numpy-style write of cell `i` of array `l`; negative indices wrap from
the end.  (`List.set` ignores out-of-range indices.) -/
def aset (l : List α) (i : Int) (v : α) : List α :=
  if i < 0 then l.set ((l.length : Int) + i).toNat v else l.set i.toNat v

/-! ## Event error codes (module-level constants of the source) -/

def DATA_ERROR : Nat := 0x00000004
def EVENT_INCOMPLETE : Nat := 0x00000008
def UNKNOWN_WORD : Nat := 0x00000010
def UNEVEN_EVENT : Nat := 0x00000020
def TRG_ERROR : Nat := 0x00000040
def TRAILER_H_ERROR : Nat := 0x00000100
def TRAILER_L_ERROR : Nat := 0x00000200
def MIMOSA_OVERFLOW : Nat := 0x00000400
def COL_ERROR : Nat := 0x00001000
def ROW_ERROR : Nat := 0x00002000
def TRG_WORD : Nat := 0x00004000
def TS_OVERFLOW : Nat := 0x00008000

/-- `FRAME_UNIT_CYCLE`: clock cycles of one Mimosa26 frame. -/
def FRAME_UNIT_CYCLE : Nat := 4608

/-! ## Word-level helper functions (one per `@njit` helper of the source) -/

def is_mimosa_data (word : Nat) : Bool := 0xff000000 &&& word == 0x20000000

def is_data_loss (word : Nat) : Bool := 0x00020000 &&& word == 0x00020000

def get_plane_number (word : Nat) : Nat := (word >>> 20) &&& 0xf

def get_frame_id_low (word : Nat) : Nat := 0x0000ffff &&& word

def get_frame_id_high (word : Nat) : Nat := (0x0000ffff &&& word) <<< 16

def is_frame_trailer0 (word : Nat) : Bool := 0x0000ffff &&& word == 0xaa50

def is_frame_trailer1 (word : Nat) (plane : Nat) : Bool :=
  0x0000ffff &&& word == (0xaa50 ||| plane)

def get_frame_length (word : Nat) : Nat := (0x0000ffff &&& word) * 2

def get_n_hits (word : Nat) : Nat := 0x00000003 &&& word

def get_column (word : Nat) : Nat := (word >>> 2) &&& 0x7ff

def get_row (word : Nat) : Nat := (word >>> 4) &&& 0x7ff

def is_frame_header (word : Nat) : Bool := 0x00010000 &&& word == 0x00010000

def get_m26_timestamp_low (word : Nat) : Nat := 0x0000ffff &&& word

def get_m26_timestamp_high (word : Nat) : Nat := (0x0000ffff &&& word) <<< 16

def get_n_words (word : Nat) : Nat := 0x0000000f &&& word

def has_overflow (word : Nat) : Bool := (0x00008000 &&& word) != 0

def is_trigger_word (word : Nat) : Bool := 0x80000000 &&& word == 0x80000000

def get_trigger_timestamp (word : Nat) : Nat := (word &&& 0x7fff0000) >>> 16

def get_trigger_number (word : Nat) (trigger_data_format : Int) : Nat :=
  if trigger_data_format = 2 then word &&& 0x0000ffff else word &&& 0x7fffffff

/-- `add_event_status(plane_id, event_status, status_code)`:
or the code into status slot `plane_id`. -/
def add_event_status (event_status : List Nat) (plane_id : Int) (status_code : Nat) :
    List Nat :=
  aset event_status plane_id (aget event_status 0 plane_id ||| status_code)

/-! ## Interpreter state and hit record -/

/-- One record of the `hit_dtype` structured array:
`plane` u1, `frame` u4, `time_stamp` u4, `trigger_number` u2, `column` u2,
`row` u2, `event_status` u4. -/
structure Hit where
  plane : Nat
  frame : Nat
  time_stamp : Nat
  trigger_number : Nat
  column : Nat
  row : Nat
  event_status : Nat
deriving DecidableEq, Repr

/-- The buffered interpreter state threaded through `build_hits`
(fields of `RawDataInterpreter.reset` plus the loop-local
`last_trigger_number`, which `build_hits` re-derives at entry).
`event_number` and `last_trigger_timestamp` are threaded by the source but
never read or written by `build_hits`, so they are omitted. -/
structure State where
  frame_id : List Nat             -- 7 cells, uint32
  last_frame_id : Nat             -- uint32 scalar
  frame_length : List Int         -- 6 cells, int32
  m26_data_loss : List Bool       -- 6 cells
  word_index : List Int           -- 6 cells, int32
  n_words : List Nat              -- 6 cells, uint32
  row : List Int                  -- 6 cells, int32
  event_status : List Nat         -- 7 cells, uint32
  trigger_number : Int            -- int64 scalar, -1 until first trigger
  last_trigger_number : Int       -- loop-local of build_hits
  m26_timestamps : List Nat       -- 6 cells, uint32
  trigger_timestamp : Nat         -- int64 scalar
  last_m26_timestamps : Nat       -- uint32 scalar
deriving DecidableEq, Repr

/-- State built by `RawDataInterpreter.reset()`. -/
def initState : State where
  frame_id := List.replicate 7 0
  last_frame_id := 0
  frame_length := List.replicate 6 (-1)
  m26_data_loss := List.replicate 6 false
  word_index := List.replicate 6 0
  n_words := List.replicate 6 0
  row := List.replicate 6 (-1)
  event_status := List.replicate 7 0
  trigger_number := -1
  last_trigger_number := -1
  m26_timestamps := List.replicate 6 0
  trigger_timestamp := 0
  last_m26_timestamps := 0

/-! ## The word-interpretation step, one branch of `build_hits` per helper -/

/-- Frame-header word (`is_frame_header`): latch the low timestamp bits,
reset the plane position, and for plane 1 (`plane_id == 0`) snapshot
`last_m26_timestamps` and `last_frame_id` first. -/
def headerStep (s : State) (pid : Int) (w : Nat) : List Hit × State :=
  let s1 : State := if pid = 0 then
      { s with last_m26_timestamps := aget s.m26_timestamps 0 0,
               last_frame_id := aget s.frame_id 0 1 }
    else s
  ([], { s1 with
    m26_timestamps := (aset s1.m26_timestamps pid
      (get_m26_timestamp_low w ||| (aget s1.m26_timestamps 0 pid &&& 0xffff0000))),
    word_index := aset s1.word_index pid 0,
    frame_length := aset s1.frame_length pid (-1),
    n_words := aset s1.n_words pid 0,
    m26_data_loss := aset s1.m26_data_loss pid false })

/-- Row word (`n_words == 0` in the data region): latch `n_words` and `row`
unless this is the fill-word slot `5 + frame_length`; then check the
overflow flag and the row range (`row > 576`). -/
def rowStep (s : State) (pid : Int) (w : Nat) (wi fl : Int) : List Hit × State :=
  let s2 : State := if wi = 5 + fl then
      { s with event_status := add_event_status s.event_status (pid + 1) UNEVEN_EVENT }
    else
      { s with n_words := aset s.n_words pid (get_n_words w),
               row := aset s.row pid (get_row w : Int) }
  let s3 : State := if has_overflow w then
      { s2 with event_status := add_event_status s2.event_status (pid + 1) MIMOSA_OVERFLOW,
                n_words := aset s2.n_words pid 0 }
    else s2
  let s4 : State := if 576 < aget s3.row 0 pid then
      { s3 with event_status := add_event_status s3.event_status (pid + 1) ROW_ERROR }
    else s3
  ([], s4)

/-- Column word (`n_words > 0`): count the word down, check the column
range, emit `get_n_hits w + 1` hits at consecutive columns and clear the
Mimosa status slots 1..6. -/
def colStep (s : State) (pid : Int) (w : Nat) : List Hit × State :=
  let s2 : State := { s with n_words := aset s.n_words pid (aget s.n_words 0 pid - 1) }
  let column := get_column w
  let es := if 1152 ≤ column then add_event_status s2.event_status (pid + 1) COL_ERROR
            else s2.event_status
  let st := aget es 0 (pid + 1)
  let hits := (List.range (get_n_hits w + 1)).map fun k =>
    ({ plane := ((pid + 1) % 256).toNat,
       frame := aget s2.frame_id 0 (pid + 1),
       time_stamp := aget s2.m26_timestamps 0 pid,
       trigger_number := if s2.trigger_number < 0 then 0
                         else (s2.trigger_number % 65536).toNat,
       column := column + k,
       row := ((aget s2.row 0 pid) % 65536).toNat,
       event_status := st } : Hit)
  (hits, { s2 with event_status :=
    ((((((es.set 1 0).set 2 0).set 3 0).set 4 0).set 5 0).set 6 0) })

/-- The positional `word_index` chain for a regular Mimosa data word,
after `word_index` has been counted up to `wi` (with `fl` the latched frame
length of the plane). -/
def m26DataAt (s1 : State) (pid : Int) (w : Nat) (wi fl : Int) : List Hit × State :=
  if wi = 1 then
    ([], { s1 with
      event_status := if get_m26_timestamp_high w < aget s1.m26_timestamps 0 pid &&& 0xffff0000
        then add_event_status s1.event_status (pid + 1) TS_OVERFLOW
        else s1.event_status,
      m26_timestamps := (aset s1.m26_timestamps pid
        (get_m26_timestamp_high w ||| (aget s1.m26_timestamps 0 pid &&& 0x0000ffff))) })
  else if wi = 2 then
    ([], { s1 with frame_id := (aset s1.frame_id (pid + 1)
      (get_frame_id_low w ||| (aget s1.frame_id 0 (pid + 1) &&& 0xffff0000))) })
  else if wi = 3 then
    ([], { s1 with frame_id := (aset s1.frame_id (pid + 1)
      (get_frame_id_high w ||| (aget s1.frame_id 0 (pid + 1) &&& 0x0000ffff))) })
  else if wi = 4 then
    ([], { s1 with frame_length := aset s1.frame_length pid (get_frame_length w : Int) })
  else if wi = 5 then
    ([], { s1 with event_status := if fl ≠ (get_frame_length w : Int)
      then add_event_status s1.event_status (pid + 1) EVENT_INCOMPLETE
      else s1.event_status })
  else if wi = 5 + fl + 1 then
    ([], { s1 with event_status := if is_frame_trailer0 w then s1.event_status
      else add_event_status s1.event_status (pid + 1) TRAILER_H_ERROR })
  else if wi = 5 + fl + 2 then
    ([], { s1 with event_status := if is_frame_trailer1 w (pid + 1).toNat then s1.event_status
      else add_event_status s1.event_status (pid + 1) TRAILER_L_ERROR })
  else if 5 + fl + 2 < wi then
    ([], { s1 with m26_data_loss := aset s1.m26_data_loss pid true })
  else if aget s1.n_words 0 pid = 0 then rowStep s1 pid w wi fl
  else colStep s1 pid w

/-- The positional `word_index` chain for a regular Mimosa data word:
count the word index up, then dispatch on the position. -/
def m26Data (s : State) (pid : Int) (w : Nat) : List Hit × State :=
  let wi : Int := aget s.word_index 0 pid + 1
  let fl : Int := aget s.frame_length 0 pid
  m26DataAt { s with word_index := aset s.word_index pid wi } pid w wi fl

/-- Dispatch for a Mimosa26 word: the data-loss flag is checked first, then
the frame-start flag, then the sticky per-plane loss mode. -/
def m26Word (s : State) (w : Nat) : List Hit × State :=
  let pid : Int := (get_plane_number w : Int) - 1
  if is_data_loss w then ([], { s with m26_data_loss := aset s.m26_data_loss pid true })
  else if is_frame_header w then headerStep s pid w
  else if aget s.m26_data_loss false pid then ([], s)
  else m26Data s pid w

/-- TLU trigger word: reset status slot 0 to `TRG_WORD`, run the
trigger-number continuity check, reconstruct the 31-bit trigger timestamp
from the most recent plane-1 header timestamp, and emit one synthetic hit
with plane 255. -/
def triggerStep (trigger_data_format : Int) (s : State) (w : Nat) : List Hit × State :=
  let es0 := aset s.event_status 0 TRG_WORD
  let tn_tmp := get_trigger_number w trigger_data_format
  let es1 := if s.last_trigger_number ≥ 0 ∧ s.trigger_number ≥ 0 ∧
                s.last_trigger_number + 1 ≠ (tn_tmp : Int) ∧ 0 < (tn_tmp : Int)
             then add_event_status es0 0 TRG_ERROR else es0
  let tt0 := get_trigger_timestamp w ||| (s.last_m26_timestamps &&& 0xffff8000)
  let tt := if tt0 < s.last_m26_timestamps then tt0 + 32768 else tt0
  let delta := if tt < s.last_m26_timestamps then tt + (4294967296 - s.last_m26_timestamps)
               else tt - s.last_m26_timestamps
  let fr := (s.last_frame_id + delta / FRAME_UNIT_CYCLE) % 4294967296
  let hit : Hit :=
    { plane := 255, frame := fr, time_stamp := tt % 4294967296,
      trigger_number := tn_tmp % 65536, column := 0,
      row := delta % FRAME_UNIT_CYCLE, event_status := aget es1 0 0 }
  let s1 : State :=
    { s with event_status := es1, frame_id := aset s.frame_id 0 fr,
             last_trigger_number := s.trigger_number, trigger_number := (tn_tmp : Int),
             trigger_timestamp := tt }
  ([hit], s1)

/-- One iteration of the word loop of `build_hits`. -/
def processWord (trigger_data_format : Int) (s : State) (w : Nat) : List Hit × State :=
  if is_mimosa_data w then m26Word s w
  else if is_trigger_word w then triggerStep trigger_data_format s w
  else ([], { s with event_status := add_event_status s.event_status 0 UNKNOWN_WORD })

/-- The word loop of `build_hits`, accumulating hits in stream order. -/
def processWords (trigger_data_format : Int) (s : State) : List Nat → List Hit × State
  | [] => ([], s)
  | w :: ws =>
    let r1 := processWord trigger_data_format s w
    let r2 := processWords trigger_data_format r1.2 ws
    (r1.1 ++ r2.1, r2.2)

/-- `build_hits`: re-derive the loop-local `last_trigger_number` from the
buffered `trigger_number` (the source does this at every call because
`last_trigger_number` is not part of the returned buffer), then run the
word loop. -/
def build_hits (trigger_data_format : Int) (s : State) (raw_data : List Nat) :
    List Hit × State :=
  processWords trigger_data_format
    { s with last_trigger_number := if s.trigger_number ≤ 0 then -1 else s.trigger_number - 1 }
    raw_data

/-- `RawDataInterpreter.interpret_raw_data` called once per chunk, threading
the buffered state and concatenating the returned hit arrays. -/
def interpretChunks (trigger_data_format : Int) (s : State) :
    List (List Nat) → List Hit × State
  | [] => ([], s)
  | c :: cs =>
    let r1 := build_hits trigger_data_format s c
    let r2 := interpretChunks trigger_data_format r1.2 cs
    (r1.1 ++ r2.1, r2.2)

/-- `RawDataInterpreter.__init__`: stores the configuration and resets the
state.  The source performs no validation of `trigger_data_format`, so the
construction never fails. -/
def rawDataInterpreter_init (trigger_data_format : Int) : Except String State :=
  Except.ok initState

/-- Construction-time checks of `DataInterpreter.__init__`
(`data_interpreter.py`): a `chunk_size` below 100 raises, and after building
the `RawDataInterpreter` a `trigger_data_format` other than 2 raises. -/
def dataInterpreter_init (chunk_size trigger_data_format : Int) : Except String Unit :=
  if chunk_size < 100 then Except.error "Please chose reasonable large chunk size"
  else if trigger_data_format ≠ 2 then Except.error "Trigger data format different than 2 is not supported"
  else Except.ok ()

/-! ## Basic list and bit lemmas -/

theorem getD_set_self (l : List α) (i : Nat) (v d : α) (h : i < l.length) :
    (l.set i v).getD i d = v := by
  simp [List.getD_eq_getElem?_getD, List.getElem?_set, h]

theorem getD_set_other (l : List α) (i j : Nat) (v d : α) (h : i ≠ j) :
    (l.set i v).getD j d = l.getD j d := by
  simp [List.getD_eq_getElem?_getD, List.getElem?_set, h]

theorem aget_coe (l : List α) (d : α) (p : Nat) : aget l d (p : Int) = l.getD p d := by
  unfold aget
  rw [if_neg (by omega)]
  simp

theorem aset_coe (l : List α) (p : Nat) (v : α) : aset l (p : Int) v = l.set p v := by
  unfold aset
  rw [if_neg (by omega)]
  simp

theorem length_aset (l : List α) (i : Int) (v : α) : (aset l i v).length = l.length := by
  unfold aset
  split <;> simp

theorem nat_and_or_right (a b c : Nat) : (a ||| b) &&& c = (a &&& c) ||| (b &&& c) := by
  rw [Nat.and_comm, Nat.and_or_distrib_left, Nat.and_comm c a, Nat.and_comm c b]

theorem or_and_of_and_zero {b m : Nat} (a : Nat) (h : b &&& m = 0) :
    (a ||| b) &&& m = a &&& m := by
  rw [nat_and_or_right, h, Nat.or_zero]

theorem get_trigger_timestamp_eq (w : Nat) :
    get_trigger_timestamp w = (w >>> 16) &&& 0x7fff := by
  unfold get_trigger_timestamp
  apply Nat.eq_of_testBit_eq
  intro i
  rw [Nat.testBit_shiftRight, Nat.testBit_and, Nat.testBit_and, Nat.testBit_shiftRight]
  have hm : (0x7fff0000 : Nat) = 0x7fff <<< 16 := by decide
  rw [hm, Nat.testBit_shiftLeft]
  simp

theorem get_plane_number_le (w : Nat) : get_plane_number w ≤ 15 := Nat.and_le_right

theorem get_n_hits_le (w : Nat) : get_n_hits w ≤ 3 := Nat.and_le_left

theorem get_column_le (w : Nat) : get_column w ≤ 2047 := Nat.and_le_right

theorem trigger_not_mimosa {w : Nat} (h : is_trigger_word w = true) :
    is_mimosa_data w = false := by
  rw [is_trigger_word, beq_iff_eq] at h
  rw [is_mimosa_data]
  rw [beq_eq_false_iff_ne]
  intro hm
  have h2 : 0x80000000 &&& (0xff000000 &&& w) = 0x80000000 &&& (0x20000000 : Nat) := by
    rw [hm]
  rw [← Nat.and_assoc] at h2
  have h3 : (0x80000000 &&& 0xff000000 : Nat) = 0x80000000 := by decide
  rw [h3, h] at h2
  exact absurd h2 (by decide)

/-! ## Well-formedness of the state arrays -/

/-- The array lengths produced by `RawDataInterpreter.reset()`. -/
def WF (s : State) : Prop :=
  s.frame_id.length = 7 ∧ s.frame_length.length = 6 ∧ s.m26_data_loss.length = 6 ∧
  s.word_index.length = 6 ∧ s.n_words.length = 6 ∧ s.row.length = 6 ∧
  s.event_status.length = 7 ∧ s.m26_timestamps.length = 6

instance (s : State) : Decidable (WF s) := by unfold WF; infer_instance

theorem initState_WF : WF initState := by decide

/-! ## Dispatch lemmas: which branch of `build_hits` a word reaches -/

theorem processWord_mimosa (tdf : Int) (s : State) (w : Nat)
    (h : is_mimosa_data w = true) : processWord tdf s w = m26Word s w := by
  simp [processWord, h]

theorem processWord_trigger (tdf : Int) (s : State) (w : Nat)
    (h : is_trigger_word w = true) : processWord tdf s w = triggerStep tdf s w := by
  simp [processWord, trigger_not_mimosa h, h]

theorem cast_succ (p : Nat) : ((p + 1 : Nat) : Int) - 1 = (p : Int) := by push_cast; ring

theorem m26Word_to_data (s : State) (p : Nat) (w : Nat)
    (hpl : get_plane_number w = p + 1)
    (h17 : is_data_loss w = false) (h16 : is_frame_header w = false)
    (hloss : s.m26_data_loss.getD p false = false) :
    m26Word s w = m26Data s (p : Int) w := by
  unfold m26Word
  rw [hpl, cast_succ, h17, h16]
  simp only [aget_coe, hloss]
  simp

theorem add_event_status_coe (es : List Nat) (q : Nat) (c : Nat) :
    add_event_status es (q : Int) c = es.set q (es.getD q 0 ||| c) := by
  unfold add_event_status
  rw [aget_coe, aset_coe]

theorem getD_add_self (es : List Nat) (q c : Nat) (h : q < es.length) :
    (add_event_status es (q : Int) c).getD q 0 = es.getD q 0 ||| c := by
  rw [add_event_status_coe, getD_set_self _ _ _ _ h]

theorem getD_add_other (es : List Nat) (q j c : Nat) (h : q ≠ j) :
    (add_event_status es (q : Int) c).getD j 0 = es.getD j 0 := by
  rw [add_event_status_coe, getD_set_other _ _ _ _ _ h]

theorem m26Data_to_col (s : State) (p : Nat) (w : Nat)
    (h6 : 6 ≤ s.word_index.getD p 0 + 1)
    (hle : s.word_index.getD p 0 + 1 ≤ 5 + s.frame_length.getD p 0)
    (hn : s.n_words.getD p 0 ≠ 0) :
    m26Data s (p : Int) w =
      colStep { s with word_index := s.word_index.set p (s.word_index.getD p 0 + 1) }
        (p : Int) w := by
  unfold m26Data m26DataAt
  simp only [aget_coe, aset_coe]
  split_ifs with h1 h2 h3 h4 h5 h6a h7 h8 h9 <;> first | rfl | omega

theorem m26Data_to_row (s : State) (p : Nat) (w : Nat)
    (h6 : 6 ≤ s.word_index.getD p 0 + 1)
    (hle : s.word_index.getD p 0 + 1 ≤ 5 + s.frame_length.getD p 0)
    (hn : s.n_words.getD p 0 = 0) :
    m26Data s (p : Int) w =
      rowStep { s with word_index := s.word_index.set p (s.word_index.getD p 0 + 1) }
        (p : Int) w (s.word_index.getD p 0 + 1) (s.frame_length.getD p 0) := by
  unfold m26Data m26DataAt
  simp only [aget_coe, aset_coe]
  split_ifs with h1 h2 h3 h4 h5 h6a h7 h8 h9 <;> first | rfl | omega

theorem m26Data_trailer0 (s : State) (p : Nat) (w : Nat)
    (hfl0 : 0 ≤ s.frame_length.getD p 0)
    (hwi : s.word_index.getD p 0 + 1 = 5 + s.frame_length.getD p 0 + 1)
    (hmag : is_frame_trailer0 w = false) :
    (m26Data s (p : Int) w).1 = [] ∧
      (m26Data s (p : Int) w).2 =
        { s with word_index := s.word_index.set p (s.word_index.getD p 0 + 1),
                 event_status := add_event_status s.event_status ((p : Int) + 1) TRAILER_H_ERROR } := by
  unfold m26Data m26DataAt
  simp only [aget_coe, aset_coe, hmag]
  split_ifs with h1 h2 h3 h4 h5 h6a <;> first | exact ⟨rfl, rfl⟩ | omega | simp_all

theorem colStep_fst (s : State) (p : Nat) (w : Nat)
    (hes : s.event_status.length = 7) (hp : p < 6) :
    (colStep s (p : Int) w).1 = (List.range (get_n_hits w + 1)).map (fun k =>
      { plane := p + 1,
        frame := s.frame_id.getD (p + 1) 0,
        time_stamp := s.m26_timestamps.getD p 0,
        trigger_number := if s.trigger_number < 0 then 0 else (s.trigger_number % 65536).toNat,
        column := get_column w + k,
        row := (s.row.getD p 0 % 65536).toNat,
        event_status := if 1152 ≤ get_column w then s.event_status.getD (p + 1) 0 ||| COL_ERROR
                        else s.event_status.getD (p + 1) 0 }) := by
  have hc : ((p : Int) + 1) = ((p + 1 : Nat) : Int) := by push_cast; ring
  have hplane : (((p + 1 : Nat) : Int) % 256).toNat = p + 1 := by omega
  unfold colStep
  by_cases hcol : 1152 ≤ get_column w
  · simp only [hc, aget_coe, aset_coe, if_pos hcol, hplane,
      getD_add_self s.event_status (p + 1) COL_ERROR (by omega)]
  · simp only [hc, aget_coe, aset_coe, if_neg hcol, hplane]

theorem rowStep_spec (s : State) (p : Nat) (w : Nat) (wi fl : Int)
    (hes : s.event_status.length = 7) (hrow : s.row.length = 6) (hp : p < 6)
    (hslot : wi ≠ 5 + fl) (hov : has_overflow w = false) :
    (rowStep s (p : Int) w wi fl).1 = [] ∧
    (rowStep s (p : Int) w wi fl).2.n_words = s.n_words.set p (get_n_words w) ∧
    (rowStep s (p : Int) w wi fl).2.row = s.row.set p (get_row w : Int) ∧
    (rowStep s (p : Int) w wi fl).2.event_status.getD (p + 1) 0 =
      (if 576 < get_row w then s.event_status.getD (p + 1) 0 ||| ROW_ERROR
       else s.event_status.getD (p + 1) 0) := by
  have hc : ((p : Int) + 1) = ((p + 1 : Nat) : Int) := by push_cast; ring
  unfold rowStep
  simp only [if_neg hslot, hov, Bool.false_eq_true, if_false, hc, aget_coe, aset_coe]
  have hget : (s.row.set p (get_row w : Int)).getD p 0 = (get_row w : Int) :=
    getD_set_self _ _ _ _ (by omega)
  simp only [hget]
  by_cases hr : 576 < get_row w
  · rw [if_pos (by exact_mod_cast hr), if_pos hr]
    exact ⟨trivial, rfl, rfl, getD_add_self s.event_status (p + 1) ROW_ERROR (by omega)⟩
  · rw [if_neg (by exact_mod_cast hr), if_neg hr]
    exact ⟨trivial, rfl, rfl, rfl⟩

/-! ## Claim C2: TLU reconstruction and frame alignment -/

/-- The trigger timestamp as the claim words it: the 15-bit field
`(word >> 16) & 0x7FFF` completed with the high bits of
`last_m26_timestamps`, plus `2^15` once if the result is still below
`last_m26_timestamps`. -/
def claimTriggerTimestamp (w last : Nat) : Nat :=
  let t := ((w >>> 16) &&& 0x7fff) ||| (last &&& 0xffff8000)
  if t < last then t + 32768 else t

/-- The distance from the last Mimosa26 header to the trigger as the claim
words it, wrapping through `2^32` when the reconstructed timestamp is still
below `last_m26_timestamps`. -/
def claimDelta (w last : Nat) : Nat :=
  let t := claimTriggerTimestamp w last
  if t < last then t + (4294967296 - last) else t - last

/-- C2.  Every TLU trigger word (bit 31 set) emits exactly one hit with
`plane = 255`, `column = 0`, `time_stamp` the reconstructed trigger
timestamp, `frame = last_frame_id + delta / 4608` and `row = delta % 4608 <
4608` (the stored `time_stamp` and `frame` are 32-bit record fields, hence
the `% 2^32`). -/
theorem c2_tlu_hit_reconstruction (s : State) (w : Nat)
    (h : is_trigger_word w = true) :
    ((processWord 2 s w).1.map fun hh =>
        (hh.plane, hh.column, hh.time_stamp, hh.frame, hh.row)) =
      [(255, 0,
        claimTriggerTimestamp w s.last_m26_timestamps % 4294967296,
        (s.last_frame_id + claimDelta w s.last_m26_timestamps / 4608) % 4294967296,
        claimDelta w s.last_m26_timestamps % 4608)] ∧
    claimDelta w s.last_m26_timestamps % 4608 < 4608 := by
  rw [processWord_trigger 2 s w h]
  refine ⟨?_, Nat.mod_lt _ (by norm_num)⟩
  unfold triggerStep claimDelta claimTriggerTimestamp FRAME_UNIT_CYCLE
  simp only [get_trigger_timestamp_eq, List.map, claimTriggerTimestamp]

/-- Witness for C2 at the trigger word `0x80000005` on the fresh state. -/
theorem c2_tlu_hit_reconstruction_witness :
    is_trigger_word 0x80000005 = true ∧
    (((processWord 2 initState 0x80000005).1.map fun hh =>
        (hh.plane, hh.column, hh.time_stamp, hh.frame, hh.row)) =
      [(255, 0,
        claimTriggerTimestamp 0x80000005 initState.last_m26_timestamps % 4294967296,
        (initState.last_frame_id +
          claimDelta 0x80000005 initState.last_m26_timestamps / 4608) % 4294967296,
        claimDelta 0x80000005 initState.last_m26_timestamps % 4608)] ∧
      claimDelta 0x80000005 initState.last_m26_timestamps % 4608 < 4608) :=
  ⟨by decide, c2_tlu_hit_reconstruction initState 0x80000005 (by decide)⟩

/-- C1 (code bug).  Feeding `[0x80000005, 0x80000006]` whole gives both TLU
hits status `TRG_WORD`; feeding the same words as two chunks to the same
interpreter marks the second hit with `TRG_ERROR`, because `build_hits`
re-derives its loop-local `last_trigger_number` as `trigger_number - 1` at
every call, which differs from the value the loop would have carried across
the boundary.  Chunked and unchunked interpretation disagree bit for bit. -/
theorem c1_chunking_divergence :
    ((interpretChunks 2 initState [[0x80000005, 0x80000006]]).1.map
      fun h => h.event_status) = [TRG_WORD, TRG_WORD] ∧
    ((interpretChunks 2 initState [[0x80000005], [0x80000006]]).1.map
      fun h => h.event_status) = [TRG_WORD, TRG_WORD ||| TRG_ERROR] ∧
    (interpretChunks 2 initState [[0x80000005, 0x80000006]]).1 ≠
      (interpretChunks 2 initState [[0x80000005], [0x80000006]]).1 := by
  decide

/-- C3 (code bug).  Three TLU words with trigger numbers 5, 6, 7 — strictly
increasing by one — still produce `TRG_ERROR` on the third hit: the check
`last_trigger_number + 1 != trigger_number_tmp` compares against the
trigger number from two words back, because `last_trigger_number` is
updated to the pre-update `trigger_number`. -/
theorem c3_clean_triple_trg_error :
    ((build_hits 2 initState [0x80000005, 0x80000006, 0x80000007]).1.map
      fun h => (h.trigger_number, h.event_status)) =
    [(5, TRG_WORD), (6, TRG_WORD), (7, TRG_WORD ||| TRG_ERROR)] := by
  decide

/-- C9.  The eight words of the single-empty-frame scenario emit no hit and
leave all seven status slots zero.  (Under the source's decoding these words
all carry the frame-start flag bit 16 and plane nibble 0, so each is handled
as a frame header for numpy index `-1`.) -/
theorem c9_single_empty_frame :
    (build_hits 2 initState [0x20015555, 0x20015551, 0x20010001, 0x20010000,
      0x20010000, 0x20010000, 0x2001AA50, 0x2001AA51]).1 = [] ∧
    (build_hits 2 initState [0x20015555, 0x20015551, 0x20010001, 0x20010000,
      0x20010000, 0x20010000, 0x2001AA50, 0x2001AA51]).2.event_status =
      List.replicate 7 0 := by
  decide

/-- C4 counterexample.  A plane-1 frame whose row word encodes row 576 and
whose column word encodes base column 1151 with one extra hit emits a hit
at column 1152, row 576 with event status 0: neither `COL_ERROR` (the
source checks only the base column) nor `ROW_ERROR` (the source uses the
strict check `row > 576`) is set. -/
theorem c4_range_counterexample :
    ¬ ∀ h ∈ (build_hits 2 initState [0x20115555, 0x20105551, 0x20100000,
        0x20100000, 0x20100001, 0x20100001, 0x20102401, 0x201011FD]).1,
      1 ≤ h.plane → h.plane ≤ 6 →
        ((h.column < 1152 ∨ h.event_status &&& COL_ERROR ≠ 0) ∧
         (h.row < 576 ∨ h.event_status &&& ROW_ERROR ≠ 0)) := by
  decide

/-- C5 counterexample.  A plane-1 frame with one hit whose trailer-high
word is corrupted to `0x…AA00` emits its single hit with event status 0:
the hit was emitted before the trailer slot was reached, so no hit of the
corrupt frame carries `TRAILER_H_ERROR`; the bit is only latched into the
plane's status slot afterwards. -/
theorem c5_trailer_counterexample :
    ((build_hits 2 initState [0x20115555, 0x20105551, 0x20100000, 0x20100000,
        0x20100001, 0x20100001, 0x20100191, 0x20100190, 0x2010AA00, 0x2010AA51]).1.map
      fun h => (h.plane, h.column, h.row, h.event_status)) = [(1, 100, 25, 0)] ∧
    (build_hits 2 initState [0x20115555, 0x20105551, 0x20100000, 0x20100000,
        0x20100001, 0x20100001, 0x20100191, 0x20100190, 0x2010AA00, 0x2010AA51]).2.event_status.getD 1 0 =
      TRAILER_H_ERROR := by
  decide

/-- C7 counterexample.  After a data-loss word for plane 1, a word bearing
both the frame-start flag (bit 16) and the data-loss flag (bit 17) does not
reset the plane: the data-loss check comes first, so the plane stays in
loss mode although the word bears the frame-start flag. -/
theorem c7_loss_counterexample :
    is_frame_header 0x20130000 = true ∧
    get_plane_number 0x20130000 = 1 ∧
    (build_hits 2 initState [0x20120000, 0x20130000]).2.m26_data_loss.getD 0 false = true := by
  decide

/-- C10 counterexample.  An unknown word (`0x40000000`) accumulates
`UNKNOWN_WORD` into status slot 0; a following Mimosa-framed stream with
plane nibble 0 (numpy index `-1`, status slot 0) emits a hit that carries
that `UNKNOWN_WORD` bit. -/
theorem c10_unknown_word_counterexample :
    ¬ ∀ h ∈ (build_hits 2 initState [0x40000000, 0x20010000, 0x20000000,
        0x20000000, 0x20000000, 0x20000001, 0x20000001, 0x20000011, 0x20000004]).1,
      h.event_status &&& UNKNOWN_WORD = 0 := by
  decide

/-- C8 counterexample.  `RawDataInterpreter.__init__` performs no check of
`trigger_data_format`: construction with format 0 succeeds, and a trigger
word is then interpreted (with the 31-bit trigger-number mask) rather than
rejected. -/
theorem c8_raw_init_no_check :
    rawDataInterpreter_init 0 = Except.ok initState ∧
    ((build_hits 0 initState [0x80000005]).1.map
      fun h => (h.plane, h.trigger_number)) = [(255, 5)] :=
  ⟨rfl, by decide⟩

/-- C8 (amended).  The low-level raw-word interpreter accepts any
`trigger_data_format` and never fails at construction; only the high-level
`DataInterpreter` wrapper raises at construction exactly when the format is
not 2 (after rejecting too-small chunk sizes). -/
theorem c8_amended_config (tdf : Int) :
    rawDataInterpreter_init tdf = Except.ok initState ∧
    (dataInterpreter_init 100000000 tdf = Except.ok () ↔ tdf = 2) := by
  refine ⟨rfl, ?_⟩
  unfold dataInterpreter_init
  rw [if_neg (by norm_num)]
  by_cases h : tdf = 2
  · simp [h]
  · simp [h]

/-- Witness for the amended C8 at `trigger_data_format = 2`. -/
theorem c8_amended_config_witness :
    rawDataInterpreter_init 2 = Except.ok initState ∧
    (dataInterpreter_init 100000000 2 = Except.ok () ↔ (2 : Int) = 2) :=
  c8_amended_config 2

theorem processWords_append (tdf : Int) (s : State) (ws1 ws2 : List Nat) :
    processWords tdf s (ws1 ++ ws2) =
      ((processWords tdf s ws1).1 ++
        (processWords tdf (processWords tdf s ws1).2 ws2).1,
       (processWords tdf (processWords tdf s ws1).2 ws2).2) := by
  induction ws1 generalizing s with
  | nil => simp [processWords]
  | cons w ws ih =>
    simp only [List.cons_append, processWords, List.append_eq]
    rw [ih]
    simp [List.append_assoc]

/-- C6.  A column word emits exactly `get_n_hits w + 1` hits, consecutive in
the output, at ascending columns `c, c+1, …, c+k`, all sharing the plane's
current frame, timestamp, trigger number, row and status snapshot; and the
word loop emits hits in exact stream order (the output of a concatenated
stream is the concatenation of the outputs). -/
theorem c6_group_expansion :
    (∀ (s : State) (p w : Nat),
      WF s →
      is_mimosa_data w = true →
      get_plane_number w = p + 1 →
      is_data_loss w = false →
      is_frame_header w = false →
      s.m26_data_loss.getD p false = false →
      p < 6 →
      6 ≤ s.word_index.getD p 0 + 1 →
      s.word_index.getD p 0 + 1 ≤ 5 + s.frame_length.getD p 0 →
      s.n_words.getD p 0 ≠ 0 →
      (processWord 2 s w).1 = (List.range (get_n_hits w + 1)).map (fun k =>
        { plane := p + 1,
          frame := s.frame_id.getD (p + 1) 0,
          time_stamp := s.m26_timestamps.getD p 0,
          trigger_number := if s.trigger_number < 0 then 0
                            else (s.trigger_number % 65536).toNat,
          column := get_column w + k,
          row := (s.row.getD p 0 % 65536).toNat,
          event_status := if 1152 ≤ get_column w
                          then s.event_status.getD (p + 1) 0 ||| COL_ERROR
                          else s.event_status.getD (p + 1) 0 })) ∧
    (∀ (tdf : Int) (s : State) (ws1 ws2 : List Nat),
      (processWords tdf s (ws1 ++ ws2)).1 =
        (processWords tdf s ws1).1 ++
          (processWords tdf (processWords tdf s ws1).2 ws2).1) := by
  constructor
  · intro s p w hwf hm hpl h17 h16 hloss hp h6 hle hn
    obtain ⟨hw1, hw2, hw3, hw4, hw5, hw6, hw7, hw8⟩ := hwf
    rw [processWord_mimosa 2 s w hm, m26Word_to_data s p w hpl h17 h16 hloss,
      m26Data_to_col s p w h6 hle hn,
      colStep_fst _ p w (by simpa using hw7) hp]
  · intro tdf s ws1 ws2
    rw [processWords_append]

/-- The plane-1 state reached after a header, both header and frame-id
words, the two length words (length 2) and a row word: the next word of
plane 1 is a column word. -/
def midFrameState : State :=
  (build_hits 2 initState [0x20115555, 0x20105551, 0x20100000, 0x20100000,
    0x20100001, 0x20100001, 0x20102401]).2

/-- Witness for C6 at the column word `0x201011FD` (base column 1151, one
extra hit) in the mid-frame state, and for the order part at a two-word
stream split. -/
theorem c6_group_expansion_witness :
    (WF midFrameState ∧
     is_mimosa_data 0x201011FD = true ∧
     get_plane_number 0x201011FD = 0 + 1 ∧
     is_data_loss 0x201011FD = false ∧
     is_frame_header 0x201011FD = false ∧
     midFrameState.m26_data_loss.getD 0 false = false ∧
     6 ≤ midFrameState.word_index.getD 0 0 + 1 ∧
     midFrameState.word_index.getD 0 0 + 1 ≤ 5 + midFrameState.frame_length.getD 0 0 ∧
     midFrameState.n_words.getD 0 0 ≠ 0) ∧
    (processWord 2 midFrameState 0x201011FD).1 =
      (List.range (get_n_hits 0x201011FD + 1)).map (fun k =>
        { plane := 0 + 1,
          frame := midFrameState.frame_id.getD (0 + 1) 0,
          time_stamp := midFrameState.m26_timestamps.getD 0 0,
          trigger_number := if midFrameState.trigger_number < 0 then 0
                            else (midFrameState.trigger_number % 65536).toNat,
          column := get_column 0x201011FD + k,
          row := (midFrameState.row.getD 0 0 % 65536).toNat,
          event_status := if 1152 ≤ get_column 0x201011FD
                          then midFrameState.event_status.getD (0 + 1) 0 ||| COL_ERROR
                          else midFrameState.event_status.getD (0 + 1) 0 }) ∧
    (processWords 2 initState ([0x80000005] ++ [0x80000006])).1 =
      (processWords 2 initState [0x80000005]).1 ++
        (processWords 2 (processWords 2 initState [0x80000005]).2 [0x80000006]).1 :=
  ⟨⟨by decide, by decide, by decide, by decide, by decide, by decide, by decide,
    by decide, by decide⟩,
   c6_group_expansion.1 midFrameState 0 0x201011FD (by decide) (by decide) (by decide)
     (by decide) (by decide) (by decide) (by decide) (by decide) (by decide) (by decide),
   c6_group_expansion.2 2 initState [0x80000005] [0x80000006]⟩


/-- C4 (amended).  For hits emitted by a column word, `COL_ERROR` is set
exactly when the base column of the group is at least 1152 (the expanded
columns reach at most base + 3 and trigger no check of their own); at a row
word, `ROW_ERROR` is set exactly when the freshly latched row exceeds 576
(row = 576 is accepted), and no hit is emitted by the row word itself. -/
theorem c4_amended_ranges :
    (∀ (s : State) (p w : Nat),
      WF s →
      is_mimosa_data w = true →
      get_plane_number w = p + 1 →
      is_data_loss w = false →
      is_frame_header w = false →
      s.m26_data_loss.getD p false = false →
      p < 6 →
      6 ≤ s.word_index.getD p 0 + 1 →
      s.word_index.getD p 0 + 1 ≤ 5 + s.frame_length.getD p 0 →
      s.n_words.getD p 0 ≠ 0 →
      s.event_status.getD (p + 1) 0 &&& COL_ERROR = 0 →
      ∀ h ∈ (processWord 2 s w).1,
        (h.event_status &&& COL_ERROR ≠ 0 ↔ 1152 ≤ get_column w) ∧
        h.column ≤ get_column w + 3) ∧
    (∀ (s : State) (p w : Nat),
      WF s →
      is_mimosa_data w = true →
      get_plane_number w = p + 1 →
      is_data_loss w = false →
      is_frame_header w = false →
      s.m26_data_loss.getD p false = false →
      p < 6 →
      6 ≤ s.word_index.getD p 0 + 1 →
      s.word_index.getD p 0 + 1 ≤ 5 + s.frame_length.getD p 0 →
      s.n_words.getD p 0 = 0 →
      s.word_index.getD p 0 + 1 ≠ 5 + s.frame_length.getD p 0 →
      has_overflow w = false →
      s.event_status.getD (p + 1) 0 &&& ROW_ERROR = 0 →
      (processWord 2 s w).1 = [] ∧
      (processWord 2 s w).2.row.getD p 0 = (get_row w : Int) ∧
      (processWord 2 s w).2.n_words.getD p 0 = get_n_words w ∧
      ((processWord 2 s w).2.event_status.getD (p + 1) 0 &&& ROW_ERROR ≠ 0 ↔
        576 < get_row w)) := by
  constructor
  · intro s p w hwf hm hpl h17 h16 hloss hp h6 hle hn hpend
    obtain ⟨hw1, hw2, hw3, hw4, hw5, hw6, hw7, hw8⟩ := hwf
    rw [processWord_mimosa 2 s w hm, m26Word_to_data s p w hpl h17 h16 hloss,
      m26Data_to_col s p w h6 hle hn,
      colStep_fst _ p w (by simpa using hw7) hp]
    intro h hmem
    simp only [List.mem_map, List.mem_range] at hmem
    obtain ⟨k, hk, rfl⟩ := hmem
    have hnh := get_n_hits_le w
    constructor
    · by_cases hcol : 1152 ≤ get_column w
      · rw [if_pos hcol]
        simp only [nat_and_or_right, Nat.and_self, hpend, Nat.zero_or]
        exact ⟨fun _ => hcol, fun _ => by decide⟩
      · rw [if_neg hcol]
        simp only [hpend]
        exact ⟨fun hcontra => absurd rfl hcontra, fun hcontra => absurd hcontra hcol⟩
    · simp only []
      omega
  · intro s p w hwf hm hpl h17 h16 hloss hp h6 hle hn hslot hov hpend
    obtain ⟨hw1, hw2, hw3, hw4, hw5, hw6, hw7, hw8⟩ := hwf
    rw [processWord_mimosa 2 s w hm, m26Word_to_data s p w hpl h17 h16 hloss,
      m26Data_to_row s p w h6 hle hn]
    obtain ⟨ha, hb, hc, hd⟩ := rowStep_spec
      { s with word_index := s.word_index.set p (s.word_index.getD p 0 + 1) } p w
      (s.word_index.getD p 0 + 1) (s.frame_length.getD p 0)
      (by simpa using hw7) (by simpa using hw6) hp hslot hov
    refine ⟨ha, ?_, ?_, ?_⟩
    · rw [hc]
      exact getD_set_self _ _ _ _ (by simp only []; omega)
    · rw [hb]
      exact getD_set_self _ _ _ _ (by simp only []; omega)
    · rw [hd]
      by_cases hr : 576 < get_row w
      · rw [if_pos hr]
        simp only [nat_and_or_right, Nat.and_self, hpend, Nat.zero_or]
        exact ⟨fun _ => hr, fun _ => by decide⟩
      · rw [if_neg hr]
        simp only [hpend]
        exact ⟨fun hcontra => absurd rfl hcontra, fun hcontra => absurd hcontra hr⟩

/-- A hit record with all fields zero, used as `getD` default. -/
def defaultHit : Hit := ⟨0, 0, 0, 0, 0, 0, 0⟩

/-- The plane-1 state reached after header, timestamp, frame-id and the two
length words: the next plane-1 word is a row word. -/
def rowWordState : State :=
  (build_hits 2 initState [0x20115555, 0x20105551, 0x20100000, 0x20100000,
    0x20100001, 0x20100001]).2

/-- Witness for the amended C4: the column word `0x201011FD` (base column
1151) in the mid-frame state produces a second hit at column 1152 without
`COL_ERROR`, and the row word `0x20102401` (row 576) latches row 576
without `ROW_ERROR`. -/
theorem c4_amended_ranges_witness :
    (WF midFrameState ∧ midFrameState.n_words.getD 0 0 ≠ 0 ∧
      midFrameState.event_status.getD 1 0 &&& COL_ERROR = 0 ∧
      (processWord 2 midFrameState 0x201011FD).1.getD 1 defaultHit ∈
        (processWord 2 midFrameState 0x201011FD).1) ∧
    (((processWord 2 midFrameState 0x201011FD).1.getD 1 defaultHit).event_status &&&
        COL_ERROR ≠ 0 ↔ 1152 ≤ get_column 0x201011FD) ∧
    ((processWord 2 midFrameState 0x201011FD).1.getD 1 defaultHit).column ≤
      get_column 0x201011FD + 3 ∧
    ((processWord 2 rowWordState 0x20102401).1 = [] ∧
     (processWord 2 rowWordState 0x20102401).2.row.getD 0 0 = (get_row 0x20102401 : Int) ∧
     (processWord 2 rowWordState 0x20102401).2.n_words.getD 0 0 = get_n_words 0x20102401 ∧
     ((processWord 2 rowWordState 0x20102401).2.event_status.getD 1 0 &&& ROW_ERROR ≠ 0 ↔
       576 < get_row 0x20102401)) := by
  have h1 := c4_amended_ranges.1 midFrameState 0 0x201011FD (by decide) (by decide)
    (by decide) (by decide) (by decide) (by decide) (by decide) (by decide) (by decide)
    (by decide) (by decide)
    ((processWord 2 midFrameState 0x201011FD).1.getD 1 defaultHit) (by decide)
  have h2 := c4_amended_ranges.2 rowWordState 0 0x20102401 (by decide) (by decide)
    (by decide) (by decide) (by decide) (by decide) (by decide) (by decide) (by decide)
    (by decide) (by decide) (by decide) (by decide)
  exact ⟨⟨by decide, by decide, by decide, by decide⟩, h1.1, h1.2, h2⟩

/-- C5 (amended).  A trailer-high mismatch at slot `5 + L + 1` emits no hit
and only latches `TRAILER_H_ERROR` into the plane's status slot; the hits
of the corrupt frame itself were emitted before the trailer and do not
carry the bit.  The latched bit then appears on every hit of the plane's
next emitted group, because a column word snapshots the accumulated status
into each emitted hit. -/
theorem c5_amended_trailer :
    (∀ (s : State) (p w : Nat),
      WF s →
      is_mimosa_data w = true →
      get_plane_number w = p + 1 →
      is_data_loss w = false →
      is_frame_header w = false →
      s.m26_data_loss.getD p false = false →
      p < 6 →
      0 ≤ s.frame_length.getD p 0 →
      s.word_index.getD p 0 + 1 = 5 + s.frame_length.getD p 0 + 1 →
      is_frame_trailer0 w = false →
      (processWord 2 s w).1 = [] ∧
      (processWord 2 s w).2.event_status.getD (p + 1) 0 =
        s.event_status.getD (p + 1) 0 ||| TRAILER_H_ERROR) ∧
    (∀ (s : State) (p w : Nat),
      WF s →
      is_mimosa_data w = true →
      get_plane_number w = p + 1 →
      is_data_loss w = false →
      is_frame_header w = false →
      s.m26_data_loss.getD p false = false →
      p < 6 →
      6 ≤ s.word_index.getD p 0 + 1 →
      s.word_index.getD p 0 + 1 ≤ 5 + s.frame_length.getD p 0 →
      s.n_words.getD p 0 ≠ 0 →
      s.event_status.getD (p + 1) 0 &&& TRAILER_H_ERROR ≠ 0 →
      ∀ h ∈ (processWord 2 s w).1, h.event_status &&& TRAILER_H_ERROR ≠ 0) := by
  constructor
  · intro s p w hwf hm hpl h17 h16 hloss hp hfl0 hwi hmag
    obtain ⟨hw1, hw2, hw3, hw4, hw5, hw6, hw7, hw8⟩ := hwf
    rw [processWord_mimosa 2 s w hm, m26Word_to_data s p w hpl h17 h16 hloss]
    obtain ⟨ha, hb⟩ := m26Data_trailer0 s p w hfl0 hwi hmag
    refine ⟨ha, ?_⟩
    rw [hb]
    have hc : ((p : Int) + 1) = ((p + 1 : Nat) : Int) := by push_cast; ring
    simp only [hc]
    exact getD_add_self s.event_status (p + 1) TRAILER_H_ERROR (by omega)
  · intro s p w hwf hm hpl h17 h16 hloss hp h6 hle hn hpend
    obtain ⟨hw1, hw2, hw3, hw4, hw5, hw6, hw7, hw8⟩ := hwf
    rw [processWord_mimosa 2 s w hm, m26Word_to_data s p w hpl h17 h16 hloss,
      m26Data_to_col s p w h6 hle hn,
      colStep_fst _ p w (by simpa using hw7) hp]
    intro h hmem
    simp only [List.mem_map, List.mem_range] at hmem
    obtain ⟨k, hk, rfl⟩ := hmem
    by_cases hcol : 1152 ≤ get_column w
    · rw [if_pos hcol]
      rw [or_and_of_and_zero _ (by decide)]
      exact hpend
    · rw [if_neg hcol]
      exact hpend

/-- The plane-1 state with the frame's hits already emitted, positioned at
the trailer-high slot. -/
def trailerSlotState : State :=
  (build_hits 2 initState [0x20115555, 0x20105551, 0x20100000, 0x20100000,
    0x20100001, 0x20100001, 0x20100191, 0x20100190]).2

/-- The plane-1 state of a second frame (up to its row word) after a first
frame whose trailer-high word was corrupt: `TRAILER_H_ERROR` is pending in
status slot 1. -/
def pendingTrailerState : State :=
  (build_hits 2 initState [0x20115555, 0x20105551, 0x20100000, 0x20100000,
    0x20100001, 0x20100001, 0x20100191, 0x20100190, 0x2010AA00, 0x2010AA51,
    0x20115555, 0x20105551, 0x20100000, 0x20100000, 0x20100001, 0x20100001,
    0x20100191]).2

/-- Witness for the amended C5: the corrupt trailer word `0x2010AA00` in
the trailer-slot state emits nothing and latches `TRAILER_H_ERROR`, and the
column word of the next frame emits a hit carrying the pending bit. -/
theorem c5_amended_trailer_witness :
    (WF trailerSlotState ∧
      trailerSlotState.word_index.getD 0 0 + 1 = 5 + trailerSlotState.frame_length.getD 0 0 + 1 ∧
      is_frame_trailer0 0x2010AA00 = false ∧
      pendingTrailerState.event_status.getD 1 0 &&& TRAILER_H_ERROR ≠ 0 ∧
      (processWord 2 pendingTrailerState 0x20100190).1.getD 0 defaultHit ∈
        (processWord 2 pendingTrailerState 0x20100190).1) ∧
    ((processWord 2 trailerSlotState 0x2010AA00).1 = [] ∧
     (processWord 2 trailerSlotState 0x2010AA00).2.event_status.getD 1 0 =
       trailerSlotState.event_status.getD 1 0 ||| TRAILER_H_ERROR) ∧
    ((processWord 2 pendingTrailerState 0x20100190).1.getD 0 defaultHit).event_status &&&
      TRAILER_H_ERROR ≠ 0 := by
  have h1 := c5_amended_trailer.1 trailerSlotState 0 0x2010AA00 (by decide) (by decide)
    (by decide) (by decide) (by decide) (by decide) (by decide) (by decide) (by decide)
    (by decide)
  have h2 := c5_amended_trailer.2 pendingTrailerState 0 0x20100190 (by decide) (by decide)
    (by decide) (by decide) (by decide) (by decide) (by decide) (by decide) (by decide)
    (by decide) (by decide)
    ((processWord 2 pendingTrailerState 0x20100190).1.getD 0 defaultHit) (by decide)
  exact ⟨⟨by decide, by decide, by decide, by decide, by decide⟩, h1, h2⟩

/-- C7 (amended).  Once `m26_data_loss` is set for a plane, every Mimosa
word of that plane emits no hit; a word bearing the frame-start flag and
not the data-loss flag (bit 17 is checked first) resets the plane position
to 0, clears the loss flag and re-initialises `frame_length` and `n_words`;
every other word of the plane (including one with both flags set) leaves
`word_index`, `frame_length`, `n_words` and `row` unchanged and the loss
flag set. -/
theorem c7_amended_loss_mode :
    ∀ (s : State) (p w : Nat),
      WF s →
      is_mimosa_data w = true →
      get_plane_number w = p + 1 →
      p < 6 →
      s.m26_data_loss.getD p false = true →
      (processWord 2 s w).1 = [] ∧
      (is_data_loss w = false → is_frame_header w = true →
        (processWord 2 s w).2.word_index.getD p 0 = 0 ∧
        (processWord 2 s w).2.m26_data_loss.getD p false = false ∧
        (processWord 2 s w).2.frame_length.getD p 0 = -1 ∧
        (processWord 2 s w).2.n_words.getD p 0 = 0) ∧
      (is_data_loss w = true ∨ is_frame_header w = false →
        (processWord 2 s w).2.word_index = s.word_index ∧
        (processWord 2 s w).2.frame_length = s.frame_length ∧
        (processWord 2 s w).2.n_words = s.n_words ∧
        (processWord 2 s w).2.row = s.row ∧
        (processWord 2 s w).2.m26_data_loss.getD p false = true) := by
  intro s p w hwf hm hpl hp hloss
  obtain ⟨hw1, hw2, hw3, hw4, hw5, hw6, hw7, hw8⟩ := hwf
  rw [processWord_mimosa 2 s w hm]
  unfold m26Word
  simp only [hpl, cast_succ]
  by_cases h17 : is_data_loss w = true
  · rw [if_pos h17]
    refine ⟨rfl, ?_, ?_⟩
    · intro hcontra _
      rw [h17] at hcontra
      exact absurd hcontra (by decide)
    · intro _
      refine ⟨rfl, rfl, rfl, rfl, ?_⟩
      simp only [aset_coe]
      exact getD_set_self _ _ _ _ (by omega)
  · have h17' : is_data_loss w = false := by simpa using h17
    rw [if_neg h17]
    by_cases h16 : is_frame_header w = true
    · rw [if_pos h16]
      unfold headerStep
      by_cases hp0 : ((p : Nat) : Int) = 0
      · rw [if_pos hp0]
        refine ⟨rfl, ?_, ?_⟩
        · intro _ _
          simp only [aset_coe]
          exact ⟨getD_set_self _ _ _ _ (by omega), getD_set_self _ _ _ _ (by omega),
            getD_set_self _ _ _ _ (by omega), getD_set_self _ _ _ _ (by omega)⟩
        · intro hor
          rcases hor with hor | hor
          · exact absurd (h17'.symm.trans hor) (by decide)
          · exact absurd (hor.symm.trans h16) (by decide)
      · rw [if_neg hp0]
        refine ⟨rfl, ?_, ?_⟩
        · intro _ _
          simp only [aset_coe]
          exact ⟨getD_set_self _ _ _ _ (by omega), getD_set_self _ _ _ _ (by omega),
            getD_set_self _ _ _ _ (by omega), getD_set_self _ _ _ _ (by omega)⟩
        · intro hor
          rcases hor with hor | hor
          · exact absurd (h17'.symm.trans hor) (by decide)
          · exact absurd (hor.symm.trans h16) (by decide)
    · have h16' : is_frame_header w = false := by simpa using h16
      rw [if_neg h16]
      rw [if_pos (by rw [aget_coe]; exact hloss)]
      refine ⟨rfl, ?_, ?_⟩
      · intro _ hcontra
        exact absurd (h16'.symm.trans hcontra) (by decide)
      · intro _
        exact ⟨rfl, rfl, rfl, rfl, hloss⟩

/-- The plane-1 state after a data-loss word: the loss flag is set. -/
def lossState : State := (build_hits 2 initState [0x20120000]).2

/-- Witness for the amended C7: in the loss state, the in-frame word
`0x20100000` is discarded without any state change, and the clean header
word `0x20115555` resets the plane and clears the flag. -/
theorem c7_amended_loss_mode_witness :
    (WF lossState ∧ lossState.m26_data_loss.getD 0 false = true ∧
      is_data_loss 0x20100000 = false ∧ is_frame_header 0x20115555 = true) ∧
    ((processWord 2 lossState 0x20100000).1 = [] ∧
      (processWord 2 lossState 0x20100000).2.word_index = lossState.word_index ∧
      (processWord 2 lossState 0x20100000).2.m26_data_loss.getD 0 false = true) ∧
    ((processWord 2 lossState 0x20115555).1 = [] ∧
      (processWord 2 lossState 0x20115555).2.word_index.getD 0 0 = 0 ∧
      (processWord 2 lossState 0x20115555).2.m26_data_loss.getD 0 false = false) := by
  have h1 := c7_amended_loss_mode lossState 0 0x20100000 (by decide) (by decide)
    (by decide) (by decide) (by decide)
  have h2 := c7_amended_loss_mode lossState 0 0x20115555 (by decide) (by decide)
    (by decide) (by decide) (by decide)
  have h1u := h1.2.2 (Or.inr (by decide))
  have h2r := h2.2.1 (by decide) (by decide)
  exact ⟨⟨by decide, by decide, by decide, by decide⟩,
    ⟨h1.1, h1u.1, h1u.2.2.2.2⟩, ⟨h2.1, h2r.1, h2r.2.1⟩⟩

/-! ## Claim C10: status bits reaching emitted hits -/

/-- Invariant of the status array: seven slots, and the Mimosa slots 1..6
never hold the `UNKNOWN_WORD` bit (the source only ever accumulates
`UNKNOWN_WORD` into slot 0). -/
def EsInv (es : List Nat) : Prop :=
  es.length = 7 ∧ ∀ i, 1 ≤ i → i ≤ 6 → es.getD i 0 &&& UNKNOWN_WORD = 0

/-- Status property of one emitted hit: a TLU hit carries exactly
`TRG_WORD` or `TRG_WORD ||| TRG_ERROR`, and a hit of planes 1..6 never
carries `UNKNOWN_WORD`. -/
def HitOk (h : Hit) : Prop :=
  (h.plane = 255 → h.event_status = TRG_WORD ∨ h.event_status = TRG_WORD ||| TRG_ERROR) ∧
  (1 ≤ h.plane → h.plane ≤ 6 → h.event_status &&& UNKNOWN_WORD = 0)

theorem aset_zero (l : List α) (v : α) : aset l 0 v = l.set 0 v := by
  unfold aset
  norm_num

theorem aget_zero (l : List α) (d : α) : aget l d 0 = l.getD 0 d := by
  unfold aget
  norm_num

theorem add_event_status_zero (es : List Nat) (c : Nat) :
    add_event_status es 0 c = es.set 0 (es.getD 0 0 ||| c) := by
  unfold add_event_status
  rw [aset_zero, aget_zero]

theorem EsInv_set0 {es : List Nat} (v : Nat) (hinv : EsInv es) : EsInv (es.set 0 v) := by
  refine ⟨by rw [List.length_set]; exact hinv.1, ?_⟩
  intro i h1 h6
  rw [getD_set_other _ _ _ _ _ (by omega)]
  exact hinv.2 i h1 h6

theorem EsInv_add (es : List Nat) (i : Int) (c : Nat)
    (hc : c &&& UNKNOWN_WORD = 0) (hinv : EsInv es) :
    EsInv (add_event_status es i c) := by
  unfold add_event_status aset aget
  have hlen := hinv.1
  split_ifs with hneg
  · refine ⟨by rw [List.length_set]; exact hlen, ?_⟩
    intro j h1 h6
    by_cases hj : ((es.length : Int) + i).toNat = j
    · rw [← hj, getD_set_self _ _ _ _ (by omega), nat_and_or_right, hc, Nat.or_zero, hj]
      exact hinv.2 j h1 h6
    · rw [getD_set_other _ _ _ _ _ hj]
      exact hinv.2 j h1 h6
  · refine ⟨by rw [List.length_set]; exact hlen, ?_⟩
    intro j h1 h6
    by_cases hj : i.toNat = j
    · rw [← hj, getD_set_self _ _ _ _ (by omega), nat_and_or_right, hc, Nat.or_zero, hj]
      exact hinv.2 j h1 h6
    · rw [getD_set_other _ _ _ _ _ hj]
      exact hinv.2 j h1 h6

theorem EsInv_clear {es : List Nat} (hlen : es.length = 7) :
    EsInv ((((((es.set 1 0).set 2 0).set 3 0).set 4 0).set 5 0).set 6 0) := by
  refine ⟨by simp [List.length_set, hlen], ?_⟩
  intro i h1 h6
  interval_cases i <;>
    simp [getD_set_self, getD_set_other, List.length_set, hlen]

theorem headerStep_ok (s : State) (pid : Int) (w : Nat)
    (hinv : EsInv s.event_status) :
    (headerStep s pid w).1 = [] ∧ EsInv (headerStep s pid w).2.event_status := by
  unfold headerStep
  split_ifs <;> exact ⟨rfl, hinv⟩

theorem rowStep_ok (s : State) (pid : Int) (w : Nat) (wi fl : Int)
    (hinv : EsInv s.event_status) :
    (rowStep s pid w wi fl).1 = [] ∧ EsInv (rowStep s pid w wi fl).2.event_status := by
  unfold rowStep
  simp only []
  split_ifs <;>
    refine ⟨trivial, ?_⟩ <;>
    (repeat
      first
        | exact hinv
        | refine EsInv_add _ _ _ (by decide) ?_)

theorem colStep_ok (s : State) (pid : Int) (w : Nat)
    (hpid1 : -1 ≤ pid) (hpid2 : pid ≤ 14) (hinv : EsInv s.event_status) :
    (∀ h ∈ (colStep s pid w).1, HitOk h) ∧ EsInv (colStep s pid w).2.event_status := by
  have hlen := hinv.1
  constructor
  · intro h hmem
    unfold colStep at hmem
    simp only [List.mem_map, List.mem_range] at hmem
    obtain ⟨k, hk, rfl⟩ := hmem
    constructor
    · intro h255
      exact absurd h255 (by simp only []; omega)
    · intro hp1 hp6
      simp only [] at hp1 hp6 ⊢
      have hpid0 : 0 ≤ pid := by omega
      obtain ⟨q, rfl⟩ : ∃ q : Nat, pid = (q : Int) := ⟨pid.toNat, by omega⟩
      have hle6 : q + 1 ≤ 6 := by omega
      have hc : (((q : Nat) : Int) + 1) = ((q + 1 : Nat) : Int) := by push_cast; ring
      simp only [hc, aget_coe]
      by_cases hcol : 1152 ≤ get_column w
      · rw [if_pos hcol, add_event_status_coe,
          getD_set_self _ _ _ _ (by omega), nat_and_or_right, hinv.2 _ (by omega) hle6]
        decide
      · rw [if_neg hcol]
        exact hinv.2 _ (by omega) hle6
  · unfold colStep
    refine EsInv_clear ?_
    by_cases hcol : 1152 ≤ get_column w
    · rw [if_pos hcol]
      unfold add_event_status
      rw [length_aset]
      exact hlen
    · rw [if_neg hcol]
      exact hlen

theorem triggerStep_ok (tdf : Int) (s : State) (w : Nat)
    (hinv : EsInv s.event_status) :
    (∀ h ∈ (triggerStep tdf s w).1, HitOk h) ∧
    EsInv (triggerStep tdf s w).2.event_status := by
  have hlen := hinv.1
  have hinv0 : EsInv (aset s.event_status 0 TRG_WORD) := by
    rw [aset_zero]
    exact EsInv_set0 _ hinv
  constructor
  · intro h hmem
    unfold triggerStep at hmem
    simp only [List.mem_singleton] at hmem
    subst hmem
    constructor
    · intro _
      simp only [aset_zero]
      by_cases hcond : s.last_trigger_number ≥ 0 ∧ s.trigger_number ≥ 0 ∧
          s.last_trigger_number + 1 ≠ ((get_trigger_number w tdf : Nat) : Int) ∧
          0 < ((get_trigger_number w tdf : Nat) : Int)
      · rw [if_pos hcond, aget_zero, add_event_status_zero,
          getD_set_self _ _ _ _ (by rw [List.length_set]; omega),
          getD_set_self _ _ _ _ (by omega)]
        exact Or.inr rfl
      · rw [if_neg hcond, aget_zero, getD_set_self _ _ _ _ (by omega)]
        exact Or.inl rfl
    · intro _ hcontra
      exact absurd hcontra (show ¬((255 : Nat) ≤ 6) by decide)
  · unfold triggerStep
    simp only []
    split_ifs with hcond
    · exact EsInv_add _ _ _ (by decide) hinv0
    · exact hinv0

set_option maxHeartbeats 2000000 in
theorem m26DataAt_ok (s : State) (pid : Int) (w : Nat) (wi fl : Int)
    (hpid1 : -1 ≤ pid) (hpid2 : pid ≤ 14) (hinv : EsInv s.event_status) :
    (∀ h ∈ (m26DataAt s pid w wi fl).1, HitOk h) ∧
    EsInv (m26DataAt s pid w wi fl).2.event_status := by
  unfold m26DataAt
  constructor
  · intro h hm
    repeat'
      first
        | exact absurd hm (List.not_mem_nil h)
        | exact (colStep_ok _ _ _ hpid1 hpid2 hinv).1 h hm
        | split at hm
  · repeat'
      first
        | split
        | exact hinv
        | exact EsInv_add _ _ _ (by decide) hinv
        | exact (rowStep_ok _ _ _ _ _ hinv).2
        | exact (colStep_ok _ _ _ hpid1 hpid2 hinv).2

theorem m26Data_ok (s : State) (pid : Int) (w : Nat)
    (hpid1 : -1 ≤ pid) (hpid2 : pid ≤ 14) (hinv : EsInv s.event_status) :
    (∀ h ∈ (m26Data s pid w).1, HitOk h) ∧ EsInv (m26Data s pid w).2.event_status :=
  m26DataAt_ok _ pid w _ _ hpid1 hpid2 hinv

theorem m26Word_ok (s : State) (w : Nat) (hinv : EsInv s.event_status) :
    (∀ h ∈ (m26Word s w).1, HitOk h) ∧ EsInv (m26Word s w).2.event_status := by
  have hple := get_plane_number_le w
  have hb1 : -1 ≤ ((get_plane_number w : Nat) : Int) - 1 := by omega
  have hb2 : ((get_plane_number w : Nat) : Int) - 1 ≤ 14 := by omega
  unfold m26Word
  simp only []
  split_ifs with h17 h16 hloss
  · exact ⟨fun h hm => absurd hm (List.not_mem_nil h), hinv⟩
  · exact (fun hh => ⟨fun h hm => absurd (hh.1 ▸ hm) (List.not_mem_nil h), hh.2⟩)
      (headerStep_ok s _ w hinv)
  · exact ⟨fun h hm => absurd hm (List.not_mem_nil h), hinv⟩
  · exact m26Data_ok s _ w hb1 hb2 hinv

theorem processWord_ok (tdf : Int) (s : State) (w : Nat)
    (hinv : EsInv s.event_status) :
    (∀ h ∈ (processWord tdf s w).1, HitOk h) ∧
    EsInv (processWord tdf s w).2.event_status := by
  unfold processWord
  split_ifs with h1 h2
  · exact m26Word_ok s w hinv
  · exact triggerStep_ok tdf s w hinv
  · have hu : EsInv (add_event_status s.event_status 0 UNKNOWN_WORD) := by
      rw [add_event_status_zero]
      exact EsInv_set0 _ hinv
    exact ⟨fun h hm => absurd hm (List.not_mem_nil h), hu⟩

theorem processWords_ok (tdf : Int) (s : State) (ws : List Nat)
    (hinv : EsInv s.event_status) :
    (∀ h ∈ (processWords tdf s ws).1, HitOk h) ∧
    EsInv (processWords tdf s ws).2.event_status := by
  induction ws generalizing s with
  | nil => exact ⟨fun h hm => absurd hm (List.not_mem_nil h), hinv⟩
  | cons w ws ih =>
    simp only [processWords]
    have h1 := processWord_ok tdf s w hinv
    have h2 := ih (processWord tdf s w).2 h1.2
    refine ⟨?_, h2.2⟩
    intro h hm
    rcases List.mem_append.mp hm with hm | hm
    · exact h1.1 h hm
    · exact h2.1 h hm

/-- C10 (amended).  Every emitted hit with `plane = 255` (TLU) carries
event status exactly `TRG_WORD` (`0x4000`) or `TRG_WORD ||| TRG_ERROR`
(`0x4040`), because status slot 0 is reset at the start of every
trigger-word handling; and the `UNKNOWN_WORD` bit never appears on a hit
with plane 1..6, because it is only ever accumulated into slot 0.  (It can,
however, surface on anomalous plane-0 hits produced by Mimosa-framed words
whose plane nibble is 0, which read status slot 0 — see the
counterexample.) -/
theorem c10_amended_status :
    ∀ (ws : List Nat), ∀ h ∈ (build_hits 2 initState ws).1,
      (h.plane = 255 →
        h.event_status = TRG_WORD ∨ h.event_status = TRG_WORD ||| TRG_ERROR) ∧
      (1 ≤ h.plane → h.plane ≤ 6 → h.event_status &&& UNKNOWN_WORD = 0) := by
  intro ws h hm
  have hinit : EsInv (List.replicate 7 0) := by
    refine ⟨rfl, ?_⟩
    intro i h1 h6
    interval_cases i <;> decide
  exact (processWords_ok 2 _ ws hinit).1 h hm

/-- Witness for the amended C10 at the single trigger word `0x80000005`. -/
theorem c10_amended_status_witness :
    ((build_hits 2 initState [0x80000005]).1.getD 0 defaultHit ∈
      (build_hits 2 initState [0x80000005]).1) ∧
    (((build_hits 2 initState [0x80000005]).1.getD 0 defaultHit).plane = 255 →
      ((build_hits 2 initState [0x80000005]).1.getD 0 defaultHit).event_status = TRG_WORD ∨
      ((build_hits 2 initState [0x80000005]).1.getD 0 defaultHit).event_status =
        TRG_WORD ||| TRG_ERROR) ∧
    (1 ≤ ((build_hits 2 initState [0x80000005]).1.getD 0 defaultHit).plane →
      ((build_hits 2 initState [0x80000005]).1.getD 0 defaultHit).plane ≤ 6 →
      ((build_hits 2 initState [0x80000005]).1.getD 0 defaultHit).event_status &&&
        UNKNOWN_WORD = 0) :=
  ⟨by decide,
   (c10_amended_status [0x80000005]
     ((build_hits 2 initState [0x80000005]).1.getD 0 defaultHit) (by decide)).1,
   (c10_amended_status [0x80000005]
     ((build_hits 2 initState [0x80000005]).1.getD 0 defaultHit) (by decide)).2⟩
